import Mathlib

/-!
Shallow embedding of the fyrna/prompt terminal prompt library (Go).

The repository contains several iterations of the same component.  The main
iteration lives in `src/unnamed/part_000` (package `prompt` with `Confirm`,
`InputPrompt`, `Select`, `MultiSelect` driven over raw byte chunks read by
`terminal.readKey`).  The file `src/prompt.go` holds three further iterations
of the same library; where a claim depends on one of them we embed the
relevant `Run` loop as well (`selectLoopV1` for the first iteration's
`Select.Run`, and the event-driven `inputLoopV3` / `confirmLoopV3` for the
last iteration, whose key decoding is delegated to the external
`github.com/fyrna/x/term/key` reader and therefore modelled at the level of
decoded key events).

Terminal output (rendering, margins, escape sequences) carries no information
back into the state machines, so the embedding drops the print calls and keeps
the state transitions, the read loop, and the error returns.  Raw-mode entry
is tracked by an explicit `rawEntered` flag where a claim talks about the
terminal being touched.  `readKey` blocks until at least one byte arrives, so
a successful read is modelled as a head byte plus the remaining bytes of the
chunk; a prompt run is a function of the finite list of reads delivered to it,
returning `outOfInput` if the list is exhausted while the loop is still
running.
-/

namespace FyrnaPrompt

/-- Byte code of Ctrl-C (`keyCtrlC = 0x03` in the source). -/
def keyCtrlC : Nat := 0x03

/-- Byte code of Ctrl-Q (`keyCtrlQ = 0x11` in the source). -/
def keyCtrlQ : Nat := 0x11

/-- First backspace byte (`keyBackspace1 = 0x7f`). -/
def keyBackspace1 : Nat := 0x7f

/-- Second backspace byte (`keyBackspace2 = 0x08`). -/
def keyBackspace2 : Nat := 0x08

/-- Byte sequence of the Up arrow key, `"\x1b[A"`. -/
def keyArrowUp : List Nat := [0x1b, 0x5b, 0x41]

/-- Byte sequence of the Down arrow key, `"\x1b[B"`. -/
def keyArrowDown : List Nat := [0x1b, 0x5b, 0x42]

/-- Byte sequence compared against for Enter, `"\r"`. -/
def keyEnter : List Nat := [0x0d]

/-- Byte sequence compared against for Space, `" "`. -/
def keySpace : List Nat := [0x20]

/-- One delivered terminal read: `readKey` either fails with an I/O error or
returns a chunk of at least one byte (the Go code indexes `key[0]`
unconditionally, and `readKey` blocks until a byte is available), modelled as
the head byte plus the rest of the chunk. -/
inductive Read where
  | failure : Read
  | chunk (b0 : Nat) (rest : List Nat) : Read
deriving DecidableEq

/-- Errors a prompt `Run` can return, mirroring the `errors.New` values of the
source plus the propagated read error and a validator rejection (the last
iteration returns the validator's error directly). -/
inductive PromptError where
  | canceled
  | invalidInput
  | readFailure
  | noOptions
  | validationFailed (msg : String)
deriving DecidableEq

/-- Result of running a prompt loop on a finite list of reads: a successful
value, an error, exhaustion of the supplied reads while the loop is still
running, or a Go panic (out-of-range slice index). -/
inductive Outcome (α : Type) where
  | ok (a : α)
  | err (e : PromptError)
  | outOfInput
  | panicked
deriving DecidableEq

/-- A prompt run result together with whether raw terminal mode was entered
(assuming stdin is a terminal and `MakeRaw` succeeds, which is the environment
every claim presupposes). -/
structure RunResult (α : Type) where
  outcome : Outcome α
  rawEntered : Bool
deriving DecidableEq

/-- One iteration of a read loop either continues with a new state or stops
with an outcome. -/
inductive LoopStep (σ : Type) (α : Type) where
  | cont (s : σ)
  | stop (o : Outcome α)
deriving DecidableEq

/-- Go `utf8.DecodeRune`: returns the decoded code point and its size in
bytes; on empty input `(RuneError, 0)`, on malformed input `(RuneError, 1)`
where `RuneError = 0xFFFD`. -/
def utf8DecodeRune : List Nat → Nat × Nat
  | [] => (0xFFFD, 0)
  | b0 :: bs =>
    if b0 < 0x80 then (b0, 1)
    else if b0 < 0xC2 ∨ 0xF4 < b0 then (0xFFFD, 1)
    else if b0 < 0xE0 then
      match bs with
      | b1 :: _ =>
        if 0x80 ≤ b1 ∧ b1 ≤ 0xBF then ((b0 - 0xC0) * 0x40 + (b1 - 0x80), 2)
        else (0xFFFD, 1)
      | [] => (0xFFFD, 1)
    else if b0 < 0xF0 then
      match bs with
      | b1 :: b2 :: _ =>
        if ((if b0 = 0xE0 then 0xA0 else 0x80) ≤ b1 ∧
            b1 ≤ (if b0 = 0xED then 0x9F else 0xBF)) ∧
            0x80 ≤ b2 ∧ b2 ≤ 0xBF then
          ((b0 - 0xE0) * 0x1000 + (b1 - 0x80) * 0x40 + (b2 - 0x80), 3)
        else (0xFFFD, 1)
      | _ => (0xFFFD, 1)
    else
      match bs with
      | b1 :: b2 :: b3 :: _ =>
        if ((if b0 = 0xF0 then 0x90 else 0x80) ≤ b1 ∧
            b1 ≤ (if b0 = 0xF4 then 0x8F else 0xBF)) ∧
            (0x80 ≤ b2 ∧ b2 ≤ 0xBF) ∧ 0x80 ≤ b3 ∧ b3 ≤ 0xBF then
          ((b0 - 0xF0) * 0x40000 + (b1 - 0x80) * 0x1000 +
             (b2 - 0x80) * 0x40 + (b3 - 0x80), 4)
        else (0xFFFD, 1)
      | _ => (0xFFFD, 1)

/-- Confirm loop of `part_000` (`Confirm.Run`, lines 214-242): one read is
taken and dispatched on its first byte; every switch branch returns, the
`default` branch with the `invalid input` error. -/
def confirmLoop (dflt : Bool) : List Read → Outcome Bool
  | [] => .outOfInput
  | .failure :: _ => .err .readFailure
  | .chunk b0 _ :: _ =>
    if b0 = keyCtrlC ∨ b0 = keyCtrlQ then .err .canceled
    else if b0 = 13 ∨ b0 = 10 then .ok dflt
    else if b0 = 121 ∨ b0 = 89 then .ok true
    else if b0 = 110 ∨ b0 = 78 then .ok false
    else .err .invalidInput

/-- Result of one processed input chunk in `InputPrompt.Run` of `part_000`:
stay in the loop with a new buffer and cursor, return successfully with the
committed content (the only point where `*ip.valuePtr` is written), or return
an error. -/
inductive InputStepResult where
  | next (buf : List Nat) (cursor : Nat)
  | done (res : List Nat)
  | fail (e : PromptError)
deriving DecidableEq

/-- Byte switch of `InputPrompt.Run` in `part_000` (lines 361-395), reached
when the chunk is not an ESC-[ arrow sequence: Enter commits (after the
optional validator; a rejection re-renders and continues with the state
unchanged), Ctrl-C/Ctrl-Q cancel, backspace deletes before the cursor, and a
first byte in printable ASCII is decoded by `utf8.DecodeRune` over the whole
chunk and inserted at the cursor.  A `validate` of `none` means the value
passed validation; a configured-nil validator is modelled by `noValidate`. -/
def byteSwitch (validate : List Nat → Option String) (buf : List Nat)
    (cursor : Nat) (b0 : Nat) (key : List Nat) : InputStepResult :=
  if b0 = 13 ∨ b0 = 10 then
    if validate buf ≠ none then .next buf cursor else .done buf
  else if b0 = keyCtrlC ∨ b0 = keyCtrlQ then .fail .canceled
  else if b0 = keyBackspace1 ∨ b0 = keyBackspace2 then
    if 0 < cursor then .next (buf.take (cursor - 1) ++ buf.drop cursor) (cursor - 1)
    else .next buf cursor
  else if 32 ≤ b0 ∧ b0 ≤ 126 then
    if (utf8DecodeRune key).1 = 0xFFFD ∨ (utf8DecodeRune key).2 = 0 then
      .next buf cursor
    else
      .next (buf.take cursor ++ (utf8DecodeRune key).1 :: buf.drop cursor)
        (cursor + 1)
  else .next buf cursor

/-- One processed chunk of `InputPrompt.Run` in `part_000` (lines 344-395):
chunks of length at least 3 beginning `ESC [` move the cursor (`D` left
clamped at 0, `C` right clamped at the length, `A`/`B` ignored; any other
third byte falls through to the byte switch, where byte 27 matches nothing). -/
def inputStep (validate : List Nat → Option String) (buf : List Nat)
    (cursor : Nat) (b0 : Nat) (bs : List Nat) : InputStepResult :=
  match bs with
  | b1 :: b2 :: _ =>
    if b0 = 27 ∧ b1 = 91 then
      if b2 = 68 then
        if 0 < cursor then .next buf (cursor - 1) else .next buf cursor
      else if b2 = 67 then
        if cursor < buf.length then .next buf (cursor + 1) else .next buf cursor
      else if b2 = 65 ∨ b2 = 66 then .next buf cursor
      else byteSwitch validate buf cursor b0 (b0 :: bs)
    else byteSwitch validate buf cursor b0 (b0 :: bs)
  | _ => byteSwitch validate buf cursor b0 (b0 :: bs)

/-- Read loop of `InputPrompt.Run` in `part_000`, threading the value behind
the caller's `valuePtr`: the pointer keeps its initial value on every path
except the successful Enter, which writes the committed content. -/
def inputLoop (validate : List Nat → Option String) (ptr : List Nat) :
    List Nat → Nat → List Read → Outcome (List Nat) × List Nat
  | _, _, [] => (.outOfInput, ptr)
  | _, _, .failure :: _ => (.err .readFailure, ptr)
  | buf, cursor, .chunk b0 bs :: rest =>
    match inputStep validate buf cursor b0 bs with
    | .next buf2 cursor2 => inputLoop validate ptr buf2 cursor2 rest
    | .done res => (.ok res, res)
    | .fail e => (.err e, ptr)

/-- The `part_000` `InputPrompt.Run` with a bound non-nil `valuePtr` holding
`init`: the buffer starts as the runes of `init` with the cursor at its end.
The pair is the run outcome and the final value behind the pointer. -/
def inputRun (init : List Nat) (validate : List Nat → Option String)
    (tr : List Read) : Outcome (List Nat) × List Nat :=
  inputLoop validate init init init.length tr

/-- Validator of a prompt configured without `Validate` (nil function in Go):
every value passes. -/
def noValidate : List Nat → Option String := fun _ => none

/-- Validator that rejects every value with the message `invalid`. -/
def rejectAll : List Nat → Option String := fun _ => some "invalid"

/-- Key switch of `Select.Run` in `part_000` (lines 479-493): the whole chunk
is compared as a string against Up, Down, Enter and the one-byte Ctrl-C
string; Enter indexes `options[cursor]` (a panic when out of range); any
other chunk, including Ctrl-Q, matches no case and the loop continues. -/
def selectStep (options : List String) (cursor : Nat) (key : List Nat) :
    LoopStep Nat String :=
  if key = keyArrowUp then
    .cont (if 0 < cursor then cursor - 1 else cursor)
  else if key = keyArrowDown then
    .cont (if cursor < options.length - 1 then cursor + 1 else cursor)
  else if key = keyEnter then
    match options[cursor]? with
    | some v => .stop (.ok v)
    | none => .stop .panicked
  else if key = [keyCtrlC] then .stop (.err .canceled)
  else .cont cursor

/-- Read loop of `Select.Run` in `part_000`. -/
def selectLoop (options : List String) : Nat → List Read → Outcome String
  | _, [] => .outOfInput
  | _, .failure :: _ => .err .readFailure
  | cursor, .chunk b0 bs :: rest =>
    match selectStep options cursor (b0 :: bs) with
    | .cont c => selectLoop options c rest
    | .stop o => o

/-- The `part_000` `Select.Run` (lines 438-504): an empty option list fails
with the `no options` error before `runRaw` is called, so raw mode is never
entered; otherwise the loop starts with the highlight at 0 inside raw mode. -/
def selectRun (options : List String) (tr : List Read) : RunResult String :=
  if options.length = 0 then ⟨.err .noOptions, false⟩
  else ⟨selectLoop options 0 tr, true⟩

/-- Enter handler of `MultiSelect.Run` in `part_000` (lines 599-605): walk the
`selected` flags in order and collect the option at each true flag.  At every
call site `selected` has exactly the options' length (it is created by
`make([]bool, len(m.options))` and only mutated by `set`). -/
def chosenValues : List String → List Bool → List String
  | _, [] => []
  | [], _ :: _ => []
  | o :: os, v :: vs => if v then o :: chosenValues os vs else chosenValues os vs

/-- Key switch of `MultiSelect.Run` in `part_000` (lines 588-608): Up/Down
clamp the highlight, Space flips `selected[cursor]` (a panic when out of
range), Enter returns the chosen values, the one-byte Ctrl-C string cancels,
and anything else, including Ctrl-Q, continues the loop. -/
def multiStep (options : List String) (cursor : Nat) (selected : List Bool)
    (key : List Nat) : LoopStep (Nat × List Bool) (List String) :=
  if key = keyArrowUp then
    .cont (if 0 < cursor then cursor - 1 else cursor, selected)
  else if key = keyArrowDown then
    .cont (if cursor < options.length - 1 then cursor + 1 else cursor, selected)
  else if key = keySpace then
    match selected[cursor]? with
    | some b => .cont (cursor, selected.set cursor (!b))
    | none => .stop .panicked
  else if key = keyEnter then .stop (.ok (chosenValues options selected))
  else if key = [keyCtrlC] then .stop (.err .canceled)
  else .cont (cursor, selected)

/-- Read loop of `MultiSelect.Run` in `part_000`. -/
def multiLoop (options : List String) :
    Nat → List Bool → List Read → Outcome (List String)
  | _, _, [] => .outOfInput
  | _, _, .failure :: _ => .err .readFailure
  | cursor, selected, .chunk b0 bs :: rest =>
    match multiStep options cursor selected (b0 :: bs) with
    | .cont s => multiLoop options s.1 s.2 rest
    | .stop o => o

/-- The `part_000` `MultiSelect.Run` (lines 538-619): an empty option list
fails with the `no options` error before raw mode; otherwise the loop starts
with highlight 0 and all `selected` flags false. -/
def multiRun (options : List String) (tr : List Read) : RunResult (List String) :=
  if options.length = 0 then ⟨.err .noOptions, false⟩
  else ⟨multiLoop options 0 (List.replicate options.length false) tr, true⟩

/-- Read loop of the first `prompt.go` iteration's `Select.Run` (lines
335-410): a one-byte Ctrl-C chunk cancels before the string switch; the
switch handles Up, Down and Enter only; Enter indexes `s.options[cursor]`
with no emptiness guard anywhere in this iteration. -/
def selectLoopV1 (options : List String) : Nat → List Read → Outcome String
  | _, [] => .outOfInput
  | _, .failure :: _ => .err .readFailure
  | cursor, .chunk b0 bs :: rest =>
    if b0 :: bs = [keyCtrlC] then .err .canceled
    else if b0 :: bs = keyArrowUp then
      selectLoopV1 options (if 0 < cursor then cursor - 1 else cursor) rest
    else if b0 :: bs = keyArrowDown then
      selectLoopV1 options
        (if cursor < options.length - 1 then cursor + 1 else cursor) rest
    else if b0 :: bs = keyEnter then
      match options[cursor]? with
      | some v => .ok v
      | none => .panicked
    else selectLoopV1 options cursor rest

/-- The first `prompt.go` iteration's `Select.Run`: raw mode is entered
unconditionally before the loop (there is no empty-options check), so
`rawEntered` is true for every option list, empty or not. -/
def selectRunV1 (options : List String) (tr : List Read) : RunResult String :=
  ⟨selectLoopV1 options 0 tr, true⟩

/-- Decoded key event of the external `github.com/fyrna/x/term/key` reader
used by the last `prompt.go` iteration: a Ctrl-letter event, the named keys
the controllers dispatch on, a printable rune, or anything else. -/
inductive Event where
  | ctrl (c : Nat)
  | enter
  | backspace
  | left
  | right
  | up
  | down
  | space
  | rune (r : Nat)
  | other
deriving DecidableEq

/-- One delivered event read of the last iteration (`kr.ReadEvent`). -/
inductive EventRead where
  | failure : EventRead
  | ev (e : Event) : EventRead
deriving DecidableEq

/-- Event switch of the last `prompt.go` iteration's `InputPrompt.Run` (lines
1393-1428): Ctrl-c/Ctrl-q cancel; Enter validates the buffer and returns the
validator's error to the caller when it rejects, otherwise commits; backspace,
left, right, rune and space edit the buffer; everything else continues. -/
def inputStepV3 (validate : List Nat → Option String) (buf : List Nat)
    (cursor : Nat) : Event → InputStepResult
  | .ctrl c =>
    if c = 99 ∨ c = 113 then .fail .canceled else .next buf cursor
  | .enter =>
    match validate buf with
    | some msg => .fail (.validationFailed msg)
    | none => .done buf
  | .backspace =>
    if 0 < cursor then .next (buf.take (cursor - 1) ++ buf.drop cursor) (cursor - 1)
    else .next buf cursor
  | .left => if 0 < cursor then .next buf (cursor - 1) else .next buf cursor
  | .right =>
    if cursor < buf.length then .next buf (cursor + 1) else .next buf cursor
  | .rune r => .next (buf.take cursor ++ r :: buf.drop cursor) (cursor + 1)
  | .space => .next (buf.take cursor ++ 32 :: buf.drop cursor) (cursor + 1)
  | _ => .next buf cursor

/-- Read loop of the last `prompt.go` iteration's `InputPrompt.Run`. -/
def inputLoopV3 (validate : List Nat → Option String) :
    List Nat → Nat → List EventRead → Outcome (List Nat)
  | _, _, [] => .outOfInput
  | _, _, .failure :: _ => .err .readFailure
  | buf, cursor, .ev e :: rest =>
    match inputStepV3 validate buf cursor e with
    | .next buf2 cursor2 => inputLoopV3 validate buf2 cursor2 rest
    | .done res => .ok res
    | .fail er => .err er

/-- Read loop of the last `prompt.go` iteration's `Confirm.Run` (lines
1248-1277): Ctrl-c/Ctrl-q cancel, Enter confirms the default, the runes
y/Y and n/N confirm true/false, anything else re-prompts. -/
def confirmLoopV3 (dflt : Bool) : List EventRead → Outcome Bool
  | [] => .outOfInput
  | .failure :: _ => .err .readFailure
  | .ev e :: rest =>
    match e with
    | .ctrl c => if c = 99 ∨ c = 113 then .err .canceled else confirmLoopV3 dflt rest
    | .enter => .ok dflt
    | .rune r =>
      if r = 121 ∨ r = 89 then .ok true
      else if r = 110 ∨ r = 78 then .ok false
      else confirmLoopV3 dflt rest
    | _ => confirmLoopV3 dflt rest

/-- The last `prompt.go` iteration's `Confirm.Run` with `Value(&b)` bound
(lines 1231-1289): the default is the pointer's initial value, and the
pointer is written only after `runRaw` returns without error.  The pair is
the run outcome and the final value behind the pointer. -/
def confirmRunV3 (pinit : Bool) (tr : List EventRead) : Outcome Bool × Bool :=
  match confirmLoopV3 pinit tr with
  | .ok r => (.ok r, r)
  | o => (o, pinit)

/-! Helper lemmas. -/

/-- A chunk whose first byte is not ESC falls through to the byte switch of
the input loop, whatever the rest of the chunk is. -/
theorem inputStep_eq_byteSwitch (validate : List Nat → Option String)
    (buf : List Nat) (cursor b0 : Nat) (bs : List Nat) (h : b0 ≠ 27) :
    inputStep validate buf cursor b0 bs =
      byteSwitch validate buf cursor b0 (b0 :: bs) := by
  rcases bs with _ | ⟨b1, _ | ⟨b2, rest⟩⟩
  · rfl
  · rfl
  · simp only [inputStep]
    rw [if_neg]
    rintro ⟨h1, -⟩
    exact h h1

/-- Ctrl-C and Ctrl-Q reach the cancellation case of the input byte switch
for every buffer state and chunk tail. -/
theorem inputStep_cancel (validate : List Nat → Option String) (buf : List Nat)
    (cursor : Nat) (bs : List Nat) :
    inputStep validate buf cursor keyCtrlC bs = .fail .canceled ∧
    inputStep validate buf cursor keyCtrlQ bs = .fail .canceled := by
  constructor <;>
    rw [inputStep_eq_byteSwitch _ _ _ _ _ (by decide)] <;>
    simp [byteSwitch, keyCtrlC, keyCtrlQ]

/-- ASCII fast path of Go `utf8.DecodeRune`: a first byte below `0x80` decodes
to itself with size 1. -/
theorem utf8DecodeRune_ascii (b0 : Nat) (bs : List Nat) (h : b0 < 0x80) :
    utf8DecodeRune (b0 :: bs) = (b0, 1) := by
  simp only [utf8DecodeRune]
  rw [if_pos h]

/-- The Enter handler of `MultiSelect.Run` collects, in original list order,
exactly the options whose selected flag is true. -/
theorem chosenValues_eq_filter :
    ∀ (options : List String) (selected : List Bool),
      chosenValues options selected =
        ((options.zip selected).filter fun p => p.2).map Prod.fst
  | _, [] => by simp [chosenValues]
  | [], _ :: _ => by simp [chosenValues]
  | o :: os, v :: vs => by
    cases v <;>
      simp [chosenValues, List.zip_cons_cons, List.filter_cons,
        chosenValues_eq_filter os vs]

/-- The byte switch never moves the cursor outside the buffer. -/
theorem byteSwitch_cursor_le (validate : List Nat → Option String)
    (buf : List Nat) (cursor b0 : Nat) (key buf2 : List Nat) (cursor2 : Nat)
    (h : cursor ≤ buf.length)
    (hs : byteSwitch validate buf cursor b0 key = .next buf2 cursor2) :
    cursor2 ≤ buf2.length := by
  unfold byteSwitch at hs
  split_ifs at hs <;> cases hs <;>
    (try simp [List.length_append, List.length_take, List.length_drop]) <;>
    omega

/-- Under an in-bounds cursor the byte-switch result keeps it in bounds. -/
theorem inputStep_cursor_le (validate : List Nat → Option String)
    (buf : List Nat) (cursor b0 : Nat) (bs buf2 : List Nat) (cursor2 : Nat)
    (h : cursor ≤ buf.length)
    (hs : inputStep validate buf cursor b0 bs = .next buf2 cursor2) :
    cursor2 ≤ buf2.length := by
  rcases bs with _ | ⟨b1, _ | ⟨b2, rest⟩⟩
  · exact byteSwitch_cursor_le _ _ _ _ _ _ _ h hs
  · exact byteSwitch_cursor_le _ _ _ _ _ _ _ h hs
  · simp only [inputStep] at hs
    split_ifs at hs <;>
      first
        | exact byteSwitch_cursor_le _ _ _ _ _ _ _ h hs
        | (cases hs <;> omega)

/-- A select-loop step that continues keeps the highlight inside the list. -/
theorem selectStep_cont_lt (options : List String) (cursor : Nat)
    (key : List Nat) (c2 : Nat) (h : cursor < options.length)
    (hs : selectStep options cursor key = .cont c2) : c2 < options.length := by
  unfold selectStep at hs
  rcases hg : options[cursor]? with _ | v <;> rw [hg] at hs <;>
    split_ifs at hs <;> cases hs <;> omega

/-- A select-loop step that stops with a value returns a member of the list. -/
theorem selectStep_stop_ok_mem (options : List String) (cursor : Nat)
    (key : List Nat) (v : String)
    (hs : selectStep options cursor key = .stop (.ok v)) : v ∈ options := by
  unfold selectStep at hs
  rcases hg : options[cursor]? with _ | w <;> rw [hg] at hs <;>
    split_ifs at hs <;> cases hs <;> exact List.getElem?_mem hg

/-- With the highlight in bounds a select-loop step cannot panic. -/
theorem selectStep_not_panicked (options : List String) (cursor : Nat)
    (key : List Nat) (h : cursor < options.length) :
    selectStep options cursor key ≠ .stop .panicked := by
  unfold selectStep
  split_ifs <;> simp [List.getElem?_eq_getElem h]

/-- Every value the select loop returns is one of the options, as long as the
highlight starts in bounds. -/
theorem selectLoop_ok_mem (options : List String) :
    ∀ (tr : List Read) (cursor : Nat) (v : String), cursor < options.length →
      selectLoop options cursor tr = .ok v → v ∈ options
  | [], _, _, _, hl => by simp [selectLoop] at hl
  | .failure :: _, _, _, _, hl => by simp [selectLoop] at hl
  | .chunk b0 bs :: rest, cursor, v, h, hl => by
    simp only [selectLoop] at hl
    rcases hstep : selectStep options cursor (b0 :: bs) with c2 | o <;>
      rw [hstep] at hl
    · exact selectLoop_ok_mem options rest c2 v
        (selectStep_cont_lt options cursor _ c2 h hstep) hl
    · subst hl
      exact selectStep_stop_ok_mem options cursor _ v hstep

/-- The select loop never panics when the highlight starts in bounds. -/
theorem selectLoop_not_panicked (options : List String) :
    ∀ (tr : List Read) (cursor : Nat), cursor < options.length →
      selectLoop options cursor tr ≠ .panicked
  | [], _, _ => by simp [selectLoop]
  | .failure :: _, _, _ => by simp [selectLoop]
  | .chunk b0 bs :: rest, cursor, h => by
    simp only [selectLoop]
    rcases hstep : selectStep options cursor (b0 :: bs) with c2 | o
    · exact selectLoop_not_panicked options rest c2
        (selectStep_cont_lt options cursor _ c2 h hstep)
    · show o ≠ Outcome.panicked
      intro hl
      rw [hl] at hstep
      exact selectStep_not_panicked options cursor _ h hstep

/-- A multi-select step that continues keeps the highlight inside the list. -/
theorem multiStep_cont_lt (options : List String) (cursor : Nat)
    (selected : List Bool) (key : List Nat) (c2 : Nat) (sel2 : List Bool)
    (h : cursor < options.length)
    (hs : multiStep options cursor selected key = .cont (c2, sel2)) :
    c2 < options.length := by
  unfold multiStep at hs
  rcases hg : selected[cursor]? with _ | b <;> rw [hg] at hs <;>
    split_ifs at hs <;> cases hs <;> omega

/-- Setting an index of a list to the value already there is the identity. -/
theorem set_getD_self :
    ∀ (l : List Bool) (i : Nat), i < l.length → l.set i (l.getD i false) = l
  | a :: l, 0, _ => rfl
  | a :: l, i + 1, h => by
    simp only [List.set, List.getD_cons_succ]
    rw [set_getD_self l i (by simpa using h)]

/-- The input loop writes the bound pointer only on the successful Enter that
produced the run's value; on every other path the pointer keeps the value it
was started with. -/
theorem inputLoop_ptr_spec (validate : List Nat → Option String)
    (ptr : List Nat) :
    ∀ (tr : List Read) (buf : List Nat) (cursor : Nat),
      (∃ res, inputLoop validate ptr buf cursor tr = (.ok res, res)) ∨
      ((inputLoop validate ptr buf cursor tr).2 = ptr ∧
        ∀ res, (inputLoop validate ptr buf cursor tr).1 ≠ .ok res)
  | [], _, _ => by simp [inputLoop]
  | .failure :: _, _, _ => by simp [inputLoop]
  | .chunk b0 bs :: rest, buf, cursor => by
    simp only [inputLoop]
    rcases hstep : inputStep validate buf cursor b0 bs with ⟨buf2, cursor2⟩ | res | e
    · exact inputLoop_ptr_spec validate ptr rest buf2 cursor2
    · exact Or.inl ⟨res, rfl⟩
    · exact Or.inr ⟨rfl, fun res => by simp⟩

/-- The last iteration's Confirm writes the bound pointer only after a
successful run. -/
theorem confirmRunV3_ptr_spec (pinit : Bool) (tr : List EventRead) :
    (∃ r, confirmRunV3 pinit tr = (.ok r, r)) ∨
    ((confirmRunV3 pinit tr).2 = pinit ∧
      ∀ r, (confirmRunV3 pinit tr).1 ≠ .ok r) := by
  unfold confirmRunV3
  rcases h : confirmLoopV3 pinit tr with r | e
  · exact Or.inl ⟨r, rfl⟩
  all_goals exact Or.inr ⟨rfl, fun r => by simp⟩

/-! Claim theorems. -/

/-- Claim C1, amended.  In the `part_000` iteration a read delivering Ctrl-C
(0x03) makes every prompt kind return the canceled error immediately, in every
state of its loop; Ctrl-Q (0x11) does the same for Confirm and Input, but
Select and MultiSelect compare the chunk only against the one-byte Ctrl-C
string, so a Ctrl-Q read matches no case there and the loop simply
continues. -/
theorem c1_cancel_keys :
    (∀ (dflt : Bool) (bs : List Nat) (tr : List Read),
        confirmLoop dflt (.chunk keyCtrlC bs :: tr) = .err .canceled ∧
        confirmLoop dflt (.chunk keyCtrlQ bs :: tr) = .err .canceled) ∧
    (∀ (validate : List Nat → Option String) (ptr buf : List Nat)
        (cursor : Nat) (bs : List Nat) (tr : List Read),
        inputLoop validate ptr buf cursor (.chunk keyCtrlC bs :: tr) =
          (.err .canceled, ptr) ∧
        inputLoop validate ptr buf cursor (.chunk keyCtrlQ bs :: tr) =
          (.err .canceled, ptr)) ∧
    (∀ (options : List String) (cursor : Nat) (tr : List Read),
        selectLoop options cursor (.chunk keyCtrlC [] :: tr) = .err .canceled ∧
        selectLoop options cursor (.chunk keyCtrlQ [] :: tr) =
          selectLoop options cursor tr) ∧
    (∀ (options : List String) (cursor : Nat) (selected : List Bool)
        (tr : List Read),
        multiLoop options cursor selected (.chunk keyCtrlC [] :: tr) =
          .err .canceled ∧
        multiLoop options cursor selected (.chunk keyCtrlQ [] :: tr) =
          multiLoop options cursor selected tr) := by
  refine ⟨?_, ?_, ?_, ?_⟩
  · intro dflt bs tr
    constructor <;> simp [confirmLoop, keyCtrlC, keyCtrlQ]
  · intro validate ptr buf cursor bs tr
    constructor <;> simp only [inputLoop]
    · rw [(inputStep_cancel validate buf cursor bs).1]
    · rw [(inputStep_cancel validate buf cursor bs).2]
  · intro options cursor tr
    constructor <;>
      simp [selectLoop, selectStep, keyArrowUp, keyArrowDown, keyEnter,
        keyCtrlC, keyCtrlQ]
  · intro options cursor selected tr
    constructor <;>
      simp [multiLoop, multiStep, keyArrowUp, keyArrowDown, keySpace,
        keyEnter, keyCtrlC, keyCtrlQ]

/-- Claim C1, counterexample.  A Ctrl-Q (0x11) read delivered to the
`part_000` Select loop does not cancel: with options `["a"]` the run swallows
the Ctrl-Q chunk and a following Enter still returns `"a"`, so the claim that
Ctrl-Q makes every prompt kind return the canceled error immediately is
false. -/
theorem c1_counterexample :
    selectRun ["a"] [.chunk keyCtrlQ [], .chunk 13 []] = ⟨.ok "a", true⟩ ∧
    selectRun ["a"] [.chunk keyCtrlQ [], .chunk 13 []] ≠
      ⟨.err .canceled, true⟩ := by decide

/-- Claim C2, amended.  In the `part_000` iteration a rejected Enter keeps
the Input prompt in its editing loop with the buffer, cursor and bound
pointer unchanged; in the last `prompt.go` iteration the same rejected Enter
instead ends `Run`, returning the validator's error to the caller. -/
theorem c2_validation_behavior :
    (∀ (validate : List Nat → Option String) (ptr buf : List Nat)
        (cursor : Nat) (tr : List Read) (msg : String),
        validate buf = some msg →
        inputLoop validate ptr buf cursor (.chunk 13 [] :: tr) =
          inputLoop validate ptr buf cursor tr) ∧
    (∀ (validate : List Nat → Option String) (buf : List Nat) (cursor : Nat)
        (tr : List EventRead) (msg : String),
        validate buf = some msg →
        inputLoopV3 validate buf cursor (.ev .enter :: tr) =
          .err (.validationFailed msg)) := by
  constructor
  · intro validate ptr buf cursor tr msg h
    simp [inputLoop, inputStep, byteSwitch, h]
  · intro validate buf cursor tr msg h
    simp [inputLoopV3, inputStepV3, h]

/-- Claim C2, witness at a concrete input: a validator rejecting everything
with message `invalid`, an empty buffer and an Enter chunk. -/
theorem c2_witness :
    rejectAll [] = some "invalid" ∧
    inputLoop rejectAll [] [] 0 [.chunk 13 []] = inputLoop rejectAll [] [] 0 [] :=
  ⟨rfl, c2_validation_behavior.1 rejectAll [] [] 0 [] "invalid" rfl⟩

/-- Claim C2, counterexample.  In the last `prompt.go` iteration, Enter with
a rejecting validator makes `Run` return the validation error to the caller
instead of staying in the editing loop (staying would leave the loop to run
out of the remaining input, as the right-hand side does). -/
theorem c2_counterexample :
    inputLoopV3 rejectAll [] 0 [.ev .enter] = .err (.validationFailed "invalid") ∧
    inputLoopV3 rejectAll [] 0 [.ev .enter] ≠ inputLoopV3 rejectAll [] 0 [] := by
  decide

/-- Claim C3, amended.  In the `part_000` iteration, Select and MultiSelect
with an empty option list fail with the `no options` error before raw mode is
entered; the first `prompt.go` iteration has no such check, and its
`Select.Run` enters raw mode even with zero options. -/
theorem c3_no_options_check :
    (∀ tr, selectRun [] tr = ⟨.err .noOptions, false⟩) ∧
    (∀ tr, multiRun [] tr = ⟨.err .noOptions, false⟩) ∧
    (∀ tr, (selectRunV1 [] tr).rawEntered = true) :=
  ⟨fun _ => rfl, fun _ => rfl, fun _ => rfl⟩

/-- Claim C3, counterexample.  The first `prompt.go` iteration's `Select.Run`
on an empty option list does not return the `no options` error and has
already entered raw mode, so the claim that every Select rejects an empty
list before any terminal state is touched is false. -/
theorem c3_counterexample :
    (selectRunV1 [] []).rawEntered = true ∧
    (selectRunV1 [] []).outcome ≠ .err .noOptions := by decide

/-- Claim C4.  On Enter the `part_000` MultiSelect returns, from any loop
state, exactly the values whose selected flag is true, in original list
order; with options `["a","b","c"]` the reads Down, Space, Down, Space,
Enter yield `["b","c"]` with no error. -/
theorem c4_multiselect_enter :
    (∀ (options : List String) (cursor : Nat) (selected : List Bool)
        (tr : List Read),
        multiLoop options cursor selected (.chunk 13 [] :: tr) =
          .ok (chosenValues options selected)) ∧
    (∀ (options : List String) (selected : List Bool),
        chosenValues options selected =
          ((options.zip selected).filter fun p => p.2).map Prod.fst) ∧
    multiRun ["a", "b", "c"]
        [.chunk 27 [91, 66], .chunk 32 [], .chunk 27 [91, 66], .chunk 32 [],
          .chunk 13 []] =
      ⟨.ok ["b", "c"], true⟩ := by
  refine ⟨?_, chosenValues_eq_filter, by decide⟩
  intro options cursor selected tr
  simp [multiLoop, multiStep, keyArrowUp, keyArrowDown, keySpace, keyEnter,
    keyCtrlC]

/-- Claim C5, amended.  The `part_000` Input prompt inserts a chunk's decoded
code point only when the first byte lies in printable ASCII (0x20-0x7E), in
which case `utf8.DecodeRune` yields that byte itself; a chunk whose first
byte is 0x80 or above — in particular every multi-byte UTF-8 lead byte —
matches no case of the switch and is discarded without touching the
buffer. -/
theorem c5_printable_decoding :
    (∀ (validate : List Nat → Option String) (buf : List Nat)
        (cursor b0 : Nat) (bs : List Nat), 32 ≤ b0 → b0 ≤ 126 →
        inputStep validate buf cursor b0 bs =
          .next (buf.take cursor ++ b0 :: buf.drop cursor) (cursor + 1)) ∧
    (∀ (validate : List Nat → Option String) (buf : List Nat)
        (cursor b0 : Nat) (bs : List Nat), 128 ≤ b0 →
        inputStep validate buf cursor b0 bs = .next buf cursor) := by
  constructor
  · intro validate buf cursor b0 bs h1 h2
    rw [inputStep_eq_byteSwitch _ _ _ _ _ (by omega)]
    unfold byteSwitch
    rw [utf8DecodeRune_ascii b0 bs (by omega)]
    simp only [keyCtrlC, keyCtrlQ, keyBackspace1, keyBackspace2]
    rw [if_neg (by omega), if_neg (by omega), if_neg (by omega),
      if_pos ⟨h1, h2⟩, if_neg (by omega)]
  · intro validate buf cursor b0 bs h1
    rw [inputStep_eq_byteSwitch _ _ _ _ _ (by omega)]
    unfold byteSwitch
    simp only [keyCtrlC, keyCtrlQ, keyBackspace1, keyBackspace2]
    rw [if_neg (by omega), if_neg (by omega), if_neg (by omega),
      if_neg (by omega)]

/-- Claim C5, witness at a concrete input: the printable byte `!` (0x21)
inserted into an empty buffer. -/
theorem c5_witness :
    32 ≤ 33 ∧ 33 ≤ 126 ∧ inputStep noValidate [] 0 33 [] = .next [33] 1 :=
  ⟨by decide, by decide,
    (c5_printable_decoding.1 noValidate [] 0 33 [] (by decide)
      (by decide)).trans (by decide)⟩

/-- Claim C5, counterexample.  The chunk `0xC3 0xA9` is well-formed UTF-8 for
the printable code point é (0xE9), yet the `part_000` Input prompt ignores it
because its first byte is outside 0x20-0x7E: after that chunk and an Enter
the committed value is empty rather than `[0xE9]`, so the claim that every
well-formed multi-byte sequence is decoded and inserted is false. -/
theorem c5_counterexample :
    utf8DecodeRune [0xC3, 0xA9] = (0xE9, 2) ∧
    inputRun [] noValidate [.chunk 0xC3 [0xA9], .chunk 13 []] = (.ok [], []) ∧
    (inputRun [] noValidate [.chunk 0xC3 [0xA9], .chunk 13 []]).1 ≠
      .ok [0xE9] := by decide

/-- Claim C6.  The `part_000` Confirm prompt: Enter (CR or LF) returns the
configured default, y/Y returns true, n/N returns false, Ctrl-C and Ctrl-Q
cancel; with default false and the single input byte CR the result is false
with no error. -/
theorem c6_confirm_table :
    (∀ (dflt : Bool) (bs : List Nat) (tr : List Read),
        confirmLoop dflt (.chunk 13 bs :: tr) = .ok dflt ∧
        confirmLoop dflt (.chunk 10 bs :: tr) = .ok dflt) ∧
    (∀ (dflt : Bool) (bs : List Nat) (tr : List Read),
        confirmLoop dflt (.chunk 121 bs :: tr) = .ok true ∧
        confirmLoop dflt (.chunk 89 bs :: tr) = .ok true) ∧
    (∀ (dflt : Bool) (bs : List Nat) (tr : List Read),
        confirmLoop dflt (.chunk 110 bs :: tr) = .ok false ∧
        confirmLoop dflt (.chunk 78 bs :: tr) = .ok false) ∧
    (∀ (dflt : Bool) (bs : List Nat) (tr : List Read),
        confirmLoop dflt (.chunk keyCtrlC bs :: tr) = .err .canceled ∧
        confirmLoop dflt (.chunk keyCtrlQ bs :: tr) = .err .canceled) ∧
    confirmLoop false [.chunk 13 []] = .ok false := by
  refine ⟨?_, ?_, ?_, ?_, by decide⟩ <;>
    (intro dflt bs tr; constructor <;> simp [confirmLoop, keyCtrlC, keyCtrlQ])

/-- Claim C7.  In the `part_000` Input loop every processed chunk keeps the
cursor between 0 and the buffer length (0 is automatic over ℕ); Backspace
with the cursor at 0 leaves buffer and cursor unchanged, and Left at 0 and
Right at the buffer length are no-ops. -/
theorem c7_cursor_bounds :
    (∀ (validate : List Nat → Option String) (buf : List Nat)
        (cursor b0 : Nat) (bs buf2 : List Nat) (cursor2 : Nat),
        cursor ≤ buf.length →
        inputStep validate buf cursor b0 bs = .next buf2 cursor2 →
        cursor2 ≤ buf2.length) ∧
    (∀ (validate : List Nat → Option String) (buf : List Nat) (bs : List Nat),
        inputStep validate buf 0 keyBackspace1 bs = .next buf 0 ∧
        inputStep validate buf 0 keyBackspace2 bs = .next buf 0) ∧
    (∀ (validate : List Nat → Option String) (buf : List Nat),
        inputStep validate buf 0 27 [91, 68] = .next buf 0) ∧
    (∀ (validate : List Nat → Option String) (buf : List Nat),
        inputStep validate buf buf.length 27 [91, 67] =
          .next buf buf.length) := by
  refine ⟨inputStep_cursor_le, ?_, ?_, ?_⟩
  · intro validate buf bs
    constructor <;>
      rw [inputStep_eq_byteSwitch _ _ _ _ _ (by decide)] <;>
      simp [byteSwitch, keyCtrlC, keyCtrlQ, keyBackspace1, keyBackspace2]
  · intro validate buf
    simp [inputStep]
  · intro validate buf
    simp [inputStep, Nat.lt_irrefl]

/-- Claim C7, witness at a concrete input: inserting `h` (0x68) into an empty
buffer moves the cursor to 1, within the new buffer length. -/
theorem c7_witness :
    0 ≤ ([] : List Nat).length ∧ 1 ≤ ([104] : List Nat).length :=
  ⟨by decide,
    c7_cursor_bounds.1 noValidate [] 0 104 [] [104] 1 (by decide) (by decide)⟩

/-- Claim C8.  In the `part_000` Select and MultiSelect loops, Up at
highlight 0 and Down at the last index leave the highlight unchanged (no
wraparound); any step that continues keeps the highlight below the option
count, and a value returned by Enter is an actual member of the option list
(the select loop cannot panic from an in-bounds highlight). -/
theorem c8_highlight_bounds :
    (∀ (options : List String) (sel : List Bool),
        selectStep options 0 keyArrowUp = .cont 0 ∧
        multiStep options 0 sel keyArrowUp = .cont (0, sel)) ∧
    (∀ (options : List String) (sel : List Bool),
        selectStep options (options.length - 1) keyArrowDown =
          .cont (options.length - 1) ∧
        multiStep options (options.length - 1) sel keyArrowDown =
          .cont (options.length - 1, sel)) ∧
    (∀ (options : List String) (cursor : Nat) (key : List Nat) (c2 : Nat),
        cursor < options.length → selectStep options cursor key = .cont c2 →
        c2 < options.length) ∧
    (∀ (options : List String) (cursor : Nat) (selected : List Bool)
        (key : List Nat) (c2 : Nat) (sel2 : List Bool),
        cursor < options.length →
        multiStep options cursor selected key = .cont (c2, sel2) →
        c2 < options.length) ∧
    (∀ (options : List String) (tr : List Read) (cursor : Nat) (v : String),
        cursor < options.length → selectLoop options cursor tr = .ok v →
        v ∈ options) ∧
    (∀ (options : List String) (tr : List Read) (cursor : Nat),
        cursor < options.length →
        selectLoop options cursor tr ≠ .panicked) := by
  refine ⟨?_, ?_, fun o c k c2 => selectStep_cont_lt o c k c2,
    fun o c s k c2 s2 => multiStep_cont_lt o c s k c2 s2,
    fun o tr c v => selectLoop_ok_mem o tr c v,
    fun o tr c => selectLoop_not_panicked o tr c⟩
  · intro options sel
    constructor <;> simp [selectStep, multiStep, keyArrowUp]
  · intro options sel
    constructor <;>
      simp [selectStep, multiStep, keyArrowUp, keyArrowDown, Nat.lt_irrefl]

/-- Claim C8, witness at a concrete input: a one-option list with the
highlight at 0; Enter returns `"a"`, a member of the list. -/
theorem c8_witness :
    0 < (["a"] : List String).length ∧ "a" ∈ (["a"] : List String) :=
  ⟨by decide,
    c8_highlight_bounds.2.2.2.2.1 ["a"] [.chunk 13 []] 0 "a" (by decide)
      (by decide)⟩

/-- Claim C9.  In the `part_000` MultiSelect a Space read flips the selected
flag of the highlighted option only: the highlight is unchanged, every other
index keeps its flag, and a second Space at the same highlight restores the
original flags exactly. -/
theorem c9_space_toggle (options : List String) (cursor : Nat)
    (selected : List Bool) (h : cursor < selected.length) :
    multiStep options cursor selected keySpace =
      .cont (cursor, selected.set cursor (!selected.getD cursor false)) ∧
    (∀ j, j ≠ cursor →
        (selected.set cursor (!selected.getD cursor false)).getD j false =
          selected.getD j false) ∧
    (selected.set cursor (!selected.getD cursor false)).getD cursor false =
      (!selected.getD cursor false) ∧
    multiStep options cursor
        (selected.set cursor (!selected.getD cursor false)) keySpace =
      .cont (cursor, selected) := by
  have hget : selected[cursor]? = some (selected.getD cursor false) := by
    rw [List.getElem?_eq_getElem h, List.getD_eq_getElem selected false h]
  have hget2 : (selected.set cursor (!selected.getD cursor false))[cursor]? =
      some (!selected.getD cursor false) := List.getElem?_set_self h
  refine ⟨?_, ?_, ?_, ?_⟩
  · unfold multiStep
    rw [if_neg (by decide), if_neg (by decide), if_pos rfl, hget]
  · intro j hj
    rw [List.getD_eq_getElem?_getD, List.getElem?_set_ne (Ne.symm hj),
      List.getD_eq_getElem?_getD]
  · rw [List.getD_eq_getElem?_getD, hget2]
    rfl
  · unfold multiStep
    rw [if_neg (by decide), if_neg (by decide), if_pos rfl, hget2]
    show LoopStep.cont
        (cursor, (selected.set cursor (!selected.getD cursor false)).set cursor
          (!(!selected.getD cursor false))) =
      LoopStep.cont ((cursor, selected) : Nat × List Bool)
    rw [List.set_set, Bool.not_not, set_getD_self selected cursor h]

/-- Claim C9, witness at a concrete input: options `["a","b"]`, flags
`[false,true]`, highlight 0; Space yields flags `[true,true]`. -/
theorem c9_witness :
    0 < ([false, true] : List Bool).length ∧
    multiStep ["a", "b"] 0 [false, true] keySpace = .cont (0, [true, true]) :=
  ⟨by decide,
    ((c9_space_toggle ["a", "b"] 0 [false, true] (by decide)).1).trans
      (by decide)⟩

/-- Claim C10.  When a `part_000` Input run or a last-iteration Confirm run
returns an error (canceled or otherwise), the value behind the caller's bound
pointer keeps its pre-run value; the pointer is written exactly when the run
succeeds, with the run's result. -/
theorem c10_value_ptr :
    (∀ (init : List Nat) (validate : List Nat → Option String)
        (tr : List Read) (e : PromptError),
        (inputRun init validate tr).1 = .err e →
        (inputRun init validate tr).2 = init) ∧
    (∀ (init : List Nat) (validate : List Nat → Option String)
        (tr : List Read) (res : List Nat),
        (inputRun init validate tr).1 = .ok res →
        (inputRun init validate tr).2 = res) ∧
    (∀ (pinit : Bool) (tr : List EventRead) (e : PromptError),
        (confirmRunV3 pinit tr).1 = .err e →
        (confirmRunV3 pinit tr).2 = pinit) ∧
    (∀ (pinit : Bool) (tr : List EventRead) (res : Bool),
        (confirmRunV3 pinit tr).1 = .ok res →
        (confirmRunV3 pinit tr).2 = res) := by
  refine ⟨?_, ?_, ?_, ?_⟩
  · intro init validate tr e h
    rcases inputLoop_ptr_spec validate init tr init init.length with
      ⟨res, hres⟩ | ⟨h2, h3⟩
    · unfold inputRun at h
      rw [hres] at h
      simp at h
    · exact h2
  · intro init validate tr res h
    rcases inputLoop_ptr_spec validate init tr init init.length with
      ⟨res2, hres⟩ | ⟨h2, h3⟩
    · unfold inputRun at h ⊢
      rw [hres] at h ⊢
      simp at h
      simp [h]
    · exact absurd h (h3 res)
  · intro pinit tr e h
    rcases confirmRunV3_ptr_spec pinit tr with ⟨r, hr⟩ | ⟨h2, h3⟩
    · rw [hr] at h
      simp at h
    · exact h2
  · intro pinit tr res h
    rcases confirmRunV3_ptr_spec pinit tr with ⟨r, hr⟩ | ⟨h2, h3⟩
    · rw [hr] at h ⊢
      simp at h
      simp [h]
    · exact absurd h (h3 res)

/-- Claim C10, witness at a concrete input: a canceled Input run leaves the
bound pointer at its initial (empty) value. -/
theorem c10_witness :
    (inputRun [] noValidate [.chunk keyCtrlC []]).1 = .err .canceled ∧
    (inputRun [] noValidate [.chunk keyCtrlC []]).2 = [] :=
  ⟨by decide,
    c10_value_ptr.1 [] noValidate [.chunk keyCtrlC []] .canceled (by decide)⟩

end FyrnaPrompt
